import Mathlib

/-!
Shallow embedding of hickle/loaders/load_python3.py: the dump/load dispatch
layer for built-in Python types (list, tuple, set, bytes, str, int, float,
bool, complex, None) over an h5py-like hierarchical store.

Modelling conventions:
* Container elements are modelled as machine integers (`Int`), a representative
  scalar element kind; Python sets of such elements are `Finset Int`, and
  `list(py_obj)` on a set enumerates it in ascending order (one concrete choice
  of Python's unspecified set iteration order).
* Python floats are modelled by `Rat`: the code stores and reloads them without
  any arithmetic, so only identity of the carrier matters.
* A store node records the payload written by `create_dataset`, its attributes,
  and the keyword options (`**kwargs`) that the creator forwarded to
  `create_dataset`; a creator that drops its kwargs records the empty options.
* Fallible Python code (raising IndexError/KeyError/TypeError/ValueError)
  is modelled with `Except`; numeric parsing of textual payloads by the
  Python numeric constructors is not modelled (those arms return errors),
  and no claim exercises those arms.
-/

namespace HickleP3

/-- Keyword options (`**kwargs`) passed to a dump call, e.g. compression
settings, modelled as an association list of option names to values. -/
abbrev Options := List (String × String)

/-- A scalar element as stored in a node payload. -/
inductive Elt where
  | int (n : Int)
  | float (q : Rat)
  | bool (b : Bool)
  | complex (re im : Rat)
  | bytes (bs : List Nat)
  | str (s : String)
deriving DecidableEq, Repr

/-- A node payload: either an array of elements (`data=[...]`) or a
zero-dimensional scalar (`data=py_obj` with a scalar dtype). -/
inductive Payload where
  | arr (xs : List Elt)
  | scalar (e : Elt)
deriving DecidableEq, Repr

/-- A dataset node of the hierarchical store: name, payload, the `type`
attribute (a list of tag strings, written as a length-1 list), the optional
`python_subdtype` attribute, and the creation options that were forwarded
to the store. -/
structure Node where
  name : String
  payload : Payload
  type_attr : List String
  python_subdtype : Option String
  opts : Options
deriving DecidableEq, Repr

/-- An in-memory Python value of one of the supported kinds. -/
inductive PyVal where
  | list (xs : List Int)
  | tuple (xs : List Int)
  | set (s : Finset Int)
  | bytes (bs : List Nat)
  | str (s : String)
  | int (n : Int)
  | float (q : Rat)
  | bool (b : Bool)
  | complex (re im : Rat)
  | none
deriving DecidableEq

/-- The runtime type of a value, the key space of the encoder registry. -/
inductive PyType where
  | list | tuple | set | bytes | str | int | float | bool | complex | nonetype
deriving DecidableEq, Repr

/-- `type(py_obj)` as a registry key. -/
def type_of : PyVal → PyType
  | .list _ => .list
  | .tuple _ => .tuple
  | .set _ => .set
  | .bytes _ => .bytes
  | .str _ => .str
  | .int _ => .int
  | .float _ => .float
  | .bool _ => .bool
  | .complex _ _ => .complex
  | .none => .nonetype

/-- `str(type(py_obj))`: the full runtime type name rendered as Python prints
it, e.g. the list type renders as `<class 'list'>`. -/
def pyTypeStr : PyVal → String
  | .list _ => "<class 'list'>"
  | .tuple _ => "<class 'tuple'>"
  | .set _ => "<class 'set'>"
  | .bytes _ => "<class 'bytes'>"
  | .str _ => "<class 'str'>"
  | .int _ => "<class 'int'>"
  | .float _ => "<class 'float'>"
  | .bool _ => "<class 'bool'>"
  | .complex _ _ => "<class 'complex'>"
  | .none => "<class 'NoneType'>"

/-- `list(py_obj)` for the list-like kinds the shared container dumper is
registered for (a set enumerates in ascending order); other kinds are never
routed to that dumper by the registry. -/
def pyListElts : PyVal → Option (List Elt)
  | .list xs => Option.some (xs.map Elt.int)
  | .tuple xs => Option.some (xs.map Elt.int)
  | .set s => Option.some ((s.sort (· ≤ ·)).map Elt.int)
  | _ => Option.none

/-- The scalar element written for a python-dtype value (`data=py_obj` with
`dtype=type(py_obj)`); the dumper is registered only for these four kinds. -/
def scalarElt : PyVal → Option Elt
  | .int n => Option.some (Elt.int n)
  | .float q => Option.some (Elt.float q)
  | .bool b => Option.some (Elt.bool b)
  | .complex re im => Option.some (Elt.complex re im)
  | _ => Option.none

/-- Dumper for list, set, tuple: writes `list(py_obj)` as one array payload
named `data_<call_id>`, forwards `**kwargs` to `create_dataset`, and sets the
`type` attribute to the length-1 list holding `str(type(py_obj))`. -/
def create_listlike_dataset (py_obj : PyVal) (call_id : Nat) (kwargs : Options) :
    Option Node :=
  let dtype := pyTypeStr py_obj
  match pyListElts py_obj with
  | Option.some obj =>
      Option.some
        { name := "data_" ++ toString call_id
          payload := Payload.arr obj
          type_attr := [dtype]
          python_subdtype := Option.none
          opts := kwargs }
  | Option.none => Option.none

/-- Dumper for a python dtype object (int, float, bool, complex): writes the
value as a zero-dimensional scalar with `dtype=type(py_obj)`, sets `type` to
`[python_dtype]` and `python_subdtype` to `str(type(py_obj))`. The source
comments out `**kwargs` ("kwarg compression etc does not work on scalars"),
so no options reach the store on this path. -/
def create_python_dtype_dataset (py_obj : PyVal) (call_id : Nat) (kwargs : Options) :
    Option Node :=
  match scalarElt py_obj with
  | Option.some e =>
      Option.some
        { name := "data_" ++ toString call_id
          payload := Payload.scalar e
          type_attr := ["python_dtype"]
          python_subdtype := Option.some (pyTypeStr py_obj)
          opts := [] }
  | Option.none => Option.none

/-- Dumper for string-like objects: a bytes value is written as the length-1
array `[py_obj]` with `type = [bytes]`; a str value is written into slot 0 of
a length-1 variable-length payload with `type = [string]`; `**kwargs` is
forwarded on both branches. Any other input matches neither branch, so the
function returns without creating a node. -/
def create_stringlike_dataset (py_obj : PyVal) (call_id : Nat) (kwargs : Options) :
    Option Node :=
  match py_obj with
  | .bytes bs =>
      Option.some
        { name := "data_" ++ toString call_id
          payload := Payload.arr [Elt.bytes bs]
          type_attr := ["bytes"]
          python_subdtype := Option.none
          opts := kwargs }
  | .str s =>
      Option.some
        { name := "data_" ++ toString call_id
          payload := Payload.arr [Elt.str s]
          type_attr := ["string"]
          python_subdtype := Option.none
          opts := kwargs }
  | _ => Option.none

/-- Dumper for the None type: writes the placeholder payload `[0]` with
`type = [none]`, forwarding `**kwargs` to `create_dataset`. -/
def create_none_dataset (py_obj : PyVal) (call_id : Nat) (kwargs : Options) :
    Option Node :=
  Option.some
    { name := "data_" ++ toString call_id
      payload := Payload.arr [Elt.int 0]
      type_attr := ["none"]
      python_subdtype := Option.none
      opts := kwargs }

/-- The encoder registry `types_dict`: runtime type to dumper. -/
def types_dict : PyType → Option (PyVal → Nat → Options → Option Node)
  | .list => Option.some create_listlike_dataset
  | .tuple => Option.some create_listlike_dataset
  | .set => Option.some create_listlike_dataset
  | .bytes => Option.some create_stringlike_dataset
  | .str => Option.some create_stringlike_dataset
  | .int => Option.some create_python_dtype_dataset
  | .float => Option.some create_python_dtype_dataset
  | .bool => Option.some create_python_dtype_dataset
  | .complex => Option.some create_python_dtype_dataset
  | .nonetype => Option.some create_none_dataset

/-- Modelled from the spec: the Encoder Dispatch (which lives in the host
module, not among the packaged sources) looks up the value's runtime type in
`types_dict` and calls the registered dumper with the value, position and
per-call options. -/
def encode (v : PyVal) (call_id : Nat) (kwargs : Options) : Option Node :=
  match types_dict (type_of v) with
  | Option.some f => f v call_id kwargs
  | Option.none => Option.none

/-- A decode-side failure (a raised Python exception, surfaced to the caller). -/
inductive DecodeErr where
  | indexError
  | keyError
  | typeError
  | valueError
deriving DecidableEq, Repr

/-- Modelled from the spec: the shared node-read helper `get_type_and_data`
(`hickle.helpers`, not among the packaged sources) returns the node's `type`
attribute together with its payload. -/
def get_type_and_data (h_node : Node) : List String × Payload :=
  (h_node.type_attr, h_node.payload)

/-- An element read back from a container payload written by this module;
only integer elements occur there in this model. -/
def eltInt? : Elt → Option Int
  | .int n => Option.some n
  | _ => Option.none

/-- All elements of an array payload as integers, when they are integers. -/
def readInts : List Elt → Option (List Int)
  | [] => Option.some []
  | e :: es =>
    match eltInt? e, readInts es with
    | Option.some n, Option.some ns => Option.some (n :: ns)
    | _, _ => Option.none

/-- Loader for a list-tagged node: `list(data)` over the array payload. -/
def load_list_dataset (h_node : Node) : Except DecodeErr PyVal :=
  let data := (get_type_and_data h_node).2
  match data with
  | .arr xs =>
    match readInts xs with
    | Option.some ns => Except.ok (PyVal.list ns)
    | Option.none => Except.error DecodeErr.typeError
  | .scalar _ => Except.error DecodeErr.typeError

/-- Loader for a tuple-tagged node: `tuple(data)` over the array payload. -/
def load_tuple_dataset (h_node : Node) : Except DecodeErr PyVal :=
  let data := (get_type_and_data h_node).2
  match data with
  | .arr xs =>
    match readInts xs with
    | Option.some ns => Except.ok (PyVal.tuple ns)
    | Option.none => Except.error DecodeErr.typeError
  | .scalar _ => Except.error DecodeErr.typeError

/-- Loader for a set-tagged node: `set(data)` over the array payload;
duplicate entries collapse per set semantics. -/
def load_set_dataset (h_node : Node) : Except DecodeErr PyVal :=
  let data := (get_type_and_data h_node).2
  match data with
  | .arr xs =>
    match readInts xs with
    | Option.some ns => Except.ok (PyVal.set ns.toFinset)
    | Option.none => Except.error DecodeErr.typeError
  | .scalar _ => Except.error DecodeErr.typeError

/-- `data[0]`: slot 0 of an array payload; an empty payload raises IndexError
and a zero-dimensional scalar payload is not subscriptable. -/
def item0 : Payload → Except DecodeErr Elt
  | .arr (e :: _) => Except.ok e
  | .arr [] => Except.error DecodeErr.indexError
  | .scalar _ => Except.error DecodeErr.typeError

/-- `bytes(x)`: identity on a bytes element; a nonnegative count yields that
many zero bytes (a bool counts as 0 or 1); other arguments raise. -/
def pyBytes : Elt → Except DecodeErr (List Nat)
  | .bytes bs => Except.ok bs
  | .int n =>
    if 0 ≤ n then Except.ok (List.replicate n.toNat 0)
    else Except.error DecodeErr.valueError
  | .bool b => Except.ok (List.replicate (cond b 1 0) 0)
  | _ => Except.error DecodeErr.typeError

/-- `str(x)`: identity on a text element; other elements render to their
textual form (the non-str arms are rendering artifacts of the model; this
module only ever writes str elements into string-tagged payloads). -/
def pyStr : Elt → String
  | .str s => s
  | .int n => toString n
  | .bool b => cond b "True" "False"
  | .float q => toString q
  | .complex re im => "(" ++ toString re ++ "+" ++ toString im ++ "j)"
  | .bytes bs => "b" ++ toString bs

/-- Loader for a bytes-tagged node: `bytes(data[0])`. -/
def load_bytes_dataset (h_node : Node) : Except DecodeErr PyVal := do
  let data := (get_type_and_data h_node).2
  let e ← item0 data
  let bs ← pyBytes e
  return PyVal.bytes bs

/-- Loader for a string-tagged node: `str(data[0])`. -/
def load_string_dataset (h_node : Node) : Except DecodeErr PyVal := do
  let data := (get_type_and_data h_node).2
  let e ← item0 data
  return PyVal.str (pyStr e)

/-- Loader for a none-tagged node: returns None without reading the node. -/
def load_none_dataset (h_node : Node) : Except DecodeErr PyVal :=
  Except.ok PyVal.none

/-- `int(data)` on a scalar payload: identity on an integer, a bool counts as
0 or 1, a float truncates toward zero; a complex argument raises, and numeric
parsing of textual payloads is not modelled (those arms raise too). An array
payload is not a scalar and raises. -/
def int_cast : Payload → Except DecodeErr PyVal
  | .scalar (.int n) => Except.ok (PyVal.int n)
  | .scalar (.bool b) => Except.ok (PyVal.int (cond b 1 0))
  | .scalar (.float q) =>
    Except.ok (PyVal.int (if 0 ≤ q then ⌊q⌋ else ⌈q⌉))
  | .scalar (.complex _ _) => Except.error DecodeErr.typeError
  | .scalar _ => Except.error DecodeErr.valueError
  | .arr _ => Except.error DecodeErr.typeError

/-- `float(data)` on a scalar payload: identity on a float, integers and
bools widen; a complex argument raises; textual parsing is not modelled. -/
def float_cast : Payload → Except DecodeErr PyVal
  | .scalar (.float q) => Except.ok (PyVal.float q)
  | .scalar (.int n) => Except.ok (PyVal.float n)
  | .scalar (.bool b) => Except.ok (PyVal.float (cond b 1 0))
  | .scalar (.complex _ _) => Except.error DecodeErr.typeError
  | .scalar _ => Except.error DecodeErr.valueError
  | .arr _ => Except.error DecodeErr.typeError

/-- `bool(data)` on a scalar payload: Python truthiness of the element. -/
def bool_cast : Payload → Except DecodeErr PyVal
  | .scalar (.bool b) => Except.ok (PyVal.bool b)
  | .scalar (.int n) => Except.ok (PyVal.bool (decide (n ≠ 0)))
  | .scalar (.float q) => Except.ok (PyVal.bool (decide (q ≠ 0)))
  | .scalar (.complex re im) =>
    Except.ok (PyVal.bool (decide (re ≠ 0 ∨ im ≠ 0)))
  | .scalar (.bytes bs) => Except.ok (PyVal.bool (decide (bs ≠ [])))
  | .scalar (.str s) => Except.ok (PyVal.bool (decide (s ≠ "")))
  | .arr _ => Except.error DecodeErr.typeError

/-- `complex(data)` on a scalar payload: identity on a complex element,
real scalars widen with zero imaginary part; a bytes argument raises and
textual parsing is not modelled. -/
def complex_cast : Payload → Except DecodeErr PyVal
  | .scalar (.complex re im) => Except.ok (PyVal.complex re im)
  | .scalar (.int n) => Except.ok (PyVal.complex n 0)
  | .scalar (.float q) => Except.ok (PyVal.complex q 0)
  | .scalar (.bool b) => Except.ok (PyVal.complex (cond b 1 0) 0)
  | .scalar _ => Except.error DecodeErr.typeError
  | .arr _ => Except.error DecodeErr.typeError

/-- The fixed subtype table inside `load_python_dtype_dataset`, keyed by the
`python_subdtype` tag. -/
def type_dict : List (String × (Payload → Except DecodeErr PyVal)) :=
  [ ("<class 'int'>", int_cast)
  , ("<class 'float'>", float_cast)
  , ("<class 'bool'>", bool_cast)
  , ("<class 'complex'>", complex_cast) ]

/-- Loader for a python-dtype node: read `python_subdtype` (a missing
attribute raises KeyError), look the subtype up in `type_dict` with `get`,
and apply the found constructor to the payload; when the subtype is not in
the table, `get` yields None and calling it raises a TypeError — the
failure the spec's taxonomy names UnknownSubtypeError. -/
def load_python_dtype_dataset (h_node : Node) : Except DecodeErr PyVal :=
  let data := (get_type_and_data h_node).2
  match h_node.python_subdtype with
  | Option.none => Except.error DecodeErr.keyError
  | Option.some subtype =>
    match type_dict.lookup subtype with
    | Option.none => Except.error DecodeErr.typeError
    | Option.some tcast => tcast data

/-- The decoder registry `hkl_types_dict`: stored tag to loader. -/
def hkl_types_dict : List (String × (Node → Except DecodeErr PyVal)) :=
  [ ("<class 'list'>", load_list_dataset)
  , ("<class 'tuple'>", load_tuple_dataset)
  , ("<class 'set'>", load_set_dataset)
  , ("bytes", load_bytes_dataset)
  , ("python_dtype", load_python_dtype_dataset)
  , ("string", load_string_dataset)
  , ("none", load_none_dataset) ]

/-- Modelled from the spec: the Decoder Dispatch (host module, not among the
packaged sources) reads the node's `type` attribute, takes its first entry as
the tag, and calls the loader registered in `hkl_types_dict`; an unregistered
tag fails the lookup (the spec's UnknownTagError). -/
def decode (h_node : Node) : Except DecodeErr PyVal :=
  match h_node.type_attr.head? with
  | Option.none => Except.error DecodeErr.indexError
  | Option.some tag =>
    match hkl_types_dict.lookup tag with
    | Option.none => Except.error DecodeErr.keyError
    | Option.some f => f h_node

/-- The scalar-numeric kinds (integer, float, boolean, complex): exactly the
kinds the registry routes to `create_python_dtype_dataset`. -/
def isScalarNumeric : PyVal → Bool
  | .int _ => true
  | .float _ => true
  | .bool _ => true
  | .complex _ _ => true
  | _ => false

/-! Helper lemmas about the registries and payload reads. -/

lemma readInts_map (xs : List Int) : readInts (xs.map Elt.int) = Option.some xs := by
  induction xs with
  | nil => rfl
  | cons x xs ih => simp [List.map, readInts, eltInt?, ih]

lemma hkl_lookup_list :
    hkl_types_dict.lookup "<class 'list'>" = Option.some load_list_dataset := rfl

lemma hkl_lookup_tuple :
    hkl_types_dict.lookup "<class 'tuple'>" = Option.some load_tuple_dataset := rfl

lemma hkl_lookup_set :
    hkl_types_dict.lookup "<class 'set'>" = Option.some load_set_dataset := rfl

lemma hkl_lookup_bytes :
    hkl_types_dict.lookup "bytes" = Option.some load_bytes_dataset := rfl

lemma hkl_lookup_string :
    hkl_types_dict.lookup "string" = Option.some load_string_dataset := rfl

lemma hkl_lookup_none :
    hkl_types_dict.lookup "none" = Option.some load_none_dataset := rfl

lemma hkl_lookup_python_dtype :
    hkl_types_dict.lookup "python_dtype" = Option.some load_python_dtype_dataset := rfl

lemma decode_eq_of_lookup (n : Node) (t : String) (f : Node → Except DecodeErr PyVal)
    (h1 : n.type_attr.head? = Option.some t)
    (h2 : hkl_types_dict.lookup t = Option.some f) :
    decode n = f n := by
  unfold decode
  rw [h1]
  dsimp only
  rw [h2]

lemma typeDict_lookup_int : type_dict.lookup "<class 'int'>" = Option.some int_cast := rfl

lemma typeDict_lookup_float :
    type_dict.lookup "<class 'float'>" = Option.some float_cast := rfl

lemma typeDict_lookup_bool :
    type_dict.lookup "<class 'bool'>" = Option.some bool_cast := rfl

lemma typeDict_lookup_complex :
    type_dict.lookup "<class 'complex'>" = Option.some complex_cast := rfl

lemma load_python_dtype_eq (n : Node) (s : String)
    (f : Payload → Except DecodeErr PyVal)
    (h1 : n.python_subdtype = Option.some s)
    (h2 : type_dict.lookup s = Option.some f) :
    load_python_dtype_dataset n = f n.payload := by
  unfold load_python_dtype_dataset get_type_and_data
  rw [h1]
  dsimp only
  rw [h2]

/-- C1: for every supported kind and every value of that kind, encoding
succeeds and decoding the produced node yields exactly the original value
(same reconstructed kind, since the kinds are the constructors of PyVal). -/
theorem roundtrip_decode_encode (v : PyVal) (call_id : Nat) (kwargs : Options) :
    ∃ n : Node, encode v call_id kwargs = Option.some n ∧ decode n = Except.ok v := by
  cases v with
  | list xs =>
      refine ⟨{ name := "data_" ++ toString call_id
                payload := Payload.arr (xs.map Elt.int)
                type_attr := ["<class 'list'>"]
                python_subdtype := Option.none
                opts := kwargs }, rfl, ?_⟩
      simp [decode, hkl_types_dict, List.lookup, load_list_dataset, get_type_and_data,
        readInts_map]
  | tuple xs =>
      refine ⟨{ name := "data_" ++ toString call_id
                payload := Payload.arr (xs.map Elt.int)
                type_attr := ["<class 'tuple'>"]
                python_subdtype := Option.none
                opts := kwargs }, rfl, ?_⟩
      simp [decode, hkl_types_dict, List.lookup, load_tuple_dataset, get_type_and_data,
        readInts_map]
  | set s =>
      refine ⟨{ name := "data_" ++ toString call_id
                payload := Payload.arr ((s.sort (· ≤ ·)).map Elt.int)
                type_attr := ["<class 'set'>"]
                python_subdtype := Option.none
                opts := kwargs }, rfl, ?_⟩
      simp [decode, hkl_types_dict, List.lookup, load_set_dataset, get_type_and_data,
        readInts_map, Finset.sort_toFinset]
  | bytes bs => exact ⟨_, rfl, rfl⟩
  | str s => exact ⟨_, rfl, rfl⟩
  | int n => exact ⟨_, rfl, rfl⟩
  | float q => exact ⟨_, rfl, rfl⟩
  | bool b => exact ⟨_, rfl, rfl⟩
  | complex re im => exact ⟨_, rfl, rfl⟩
  | none => exact ⟨_, rfl, rfl⟩

/-- C2: every tag any registered encoder writes into a node's `type`
attribute is a key of the decoder registry `hkl_types_dict`, so for every
value with a registered encoder the tag lookup of the decode step finds a
loader. -/
theorem encoder_tags_in_decoder_registry (v : PyVal) (call_id : Nat)
    (kwargs : Options) (n : Node)
    (henc : encode v call_id kwargs = Option.some n) :
    ∀ t ∈ n.type_attr, ∃ f, hkl_types_dict.lookup t = Option.some f := by
  cases v <;> injection henc with h <;> subst h <;> intro t ht <;> simp at ht <;>
    subst ht <;> exact ⟨_, rfl⟩

/-- Witness for C2 at the value 1: the written tag `python_dtype` has a
registered loader. -/
theorem encoder_tags_in_decoder_registry_witness :
    ∃ f, hkl_types_dict.lookup "python_dtype" = Option.some f :=
  encoder_tags_in_decoder_registry (PyVal.int 1) 0 []
    { name := "data_0"
      payload := Payload.scalar (Elt.int 1)
      type_attr := ["python_dtype"]
      python_subdtype := Option.some "<class 'int'>"
      opts := [] }
    rfl "python_dtype" (by simp)

/-- C3: decoding a node tagged `python_dtype` whose `python_subdtype` is
none of the four recognized numeric-kind tags fails (the subtype table's
`get` yields None and calling it raises — the spec's UnknownSubtypeError)
and returns no value. -/
theorem unknown_python_subdtype_decode_fails (n : Node) (s : String)
    (h1 : n.type_attr.head? = Option.some "python_dtype")
    (h2 : n.python_subdtype = Option.some s)
    (h3 : s ∉ ["<class 'int'>", "<class 'float'>", "<class 'bool'>", "<class 'complex'>"]) :
    decode n = Except.error DecodeErr.typeError := by
  rw [decode_eq_of_lookup n "python_dtype" load_python_dtype_dataset h1
    hkl_lookup_python_dtype]
  unfold load_python_dtype_dataset get_type_and_data
  rw [h2]
  dsimp only
  simp only [List.mem_cons, List.not_mem_nil, or_false, not_or] at h3
  obtain ⟨ha, hb, hc, hd⟩ := h3
  have hl : type_dict.lookup s = Option.none := by
    simp [type_dict, List.lookup, beq_eq_false_iff_ne.mpr ha, beq_eq_false_iff_ne.mpr hb,
      beq_eq_false_iff_ne.mpr hc, beq_eq_false_iff_ne.mpr hd]
  rw [hl]

/-- Witness for C3 at a node with subtype tag `bogus`. -/
theorem unknown_python_subdtype_decode_fails_witness :
    decode
      { name := "data_0"
        payload := Payload.scalar (Elt.int 0)
        type_attr := ["python_dtype"]
        python_subdtype := Option.some "bogus"
        opts := [] } = Except.error DecodeErr.typeError :=
  unknown_python_subdtype_decode_fails _ "bogus" rfl rfl (by decide)

/-- C4 counterexample: encoding None with caller-supplied compression options
yields a different node than encoding None with no options —
`create_none_dataset` forwards its `**kwargs` to the store instead of
dropping them, so the claim fails on the placeholder path. -/
theorem none_options_counterexample :
    encode PyVal.none 0 [("compression", "gzip")] ≠ encode PyVal.none 0 [] := by
  decide

/-- C4 as amended: for every scalar-numeric value, encoding with any options
produces the same node as encoding with no options and never fails — the
options are silently dropped on that path; the placeholder (None) path also
never fails but does not drop the options: it forwards them to the store
unchanged, so the created node records them. -/
theorem options_dropped_scalar_forwarded_none (call_id : Nat) (kwargs : Options) :
    (∀ v, isScalarNumeric v = true →
      encode v call_id kwargs = encode v call_id [] ∧
        ∃ n, encode v call_id kwargs = Option.some n ∧ n.opts = []) ∧
    (∃ n, encode PyVal.none call_id kwargs = Option.some n ∧ n.opts = kwargs) := by
  constructor
  · intro v h
    cases v <;> simp [isScalarNumeric] at h <;> exact ⟨rfl, _, rfl, rfl⟩
  · exact ⟨_, rfl, rfl⟩

/-- Witness for amended C4 at the value 7 with compression options. -/
theorem options_dropped_scalar_forwarded_none_witness :
    encode (PyVal.int 7) 0 [("compression", "gzip")] = encode (PyVal.int 7) 0 [] :=
  ((options_dropped_scalar_forwarded_none 0 [("compression", "gzip")]).1
    (PyVal.int 7) rfl).1

/-- C5: the shared container dumper writes the concrete runtime kind name as
the tag; the decoder registry holds three distinct entries, one per container
tag; a list-tagged node decodes to an ordered sequence and a tuple-tagged
node to a fixed sequence, both preserving the stored payload order, and a
set-tagged node decodes to an unordered-unique collection. -/
theorem container_tags_distinct_decoders (xs : List Int) (s : Finset Int)
    (call_id : Nat) (kwargs : Options) :
    (∃ n, encode (PyVal.list xs) call_id kwargs = Option.some n ∧
        n.type_attr = [pyTypeStr (PyVal.list xs)] ∧
        decode n = Except.ok (PyVal.list xs)) ∧
    (∃ n, encode (PyVal.tuple xs) call_id kwargs = Option.some n ∧
        n.type_attr = [pyTypeStr (PyVal.tuple xs)] ∧
        decode n = Except.ok (PyVal.tuple xs)) ∧
    (∃ n, encode (PyVal.set s) call_id kwargs = Option.some n ∧
        n.type_attr = [pyTypeStr (PyVal.set s)] ∧
        decode n = Except.ok (PyVal.set s)) ∧
    hkl_types_dict.lookup "<class 'list'>" = Option.some load_list_dataset ∧
    hkl_types_dict.lookup "<class 'tuple'>" = Option.some load_tuple_dataset ∧
    hkl_types_dict.lookup "<class 'set'>" = Option.some load_set_dataset ∧
    ("<class 'list'>" : String) ≠ "<class 'tuple'>" ∧
    ("<class 'list'>" : String) ≠ "<class 'set'>" ∧
    ("<class 'tuple'>" : String) ≠ "<class 'set'>" := by
  refine ⟨⟨{ name := "data_" ++ toString call_id
             payload := Payload.arr (xs.map Elt.int)
             type_attr := ["<class 'list'>"]
             python_subdtype := Option.none
             opts := kwargs }, rfl, rfl, ?_⟩,
          ⟨{ name := "data_" ++ toString call_id
             payload := Payload.arr (xs.map Elt.int)
             type_attr := ["<class 'tuple'>"]
             python_subdtype := Option.none
             opts := kwargs }, rfl, rfl, ?_⟩,
          ⟨{ name := "data_" ++ toString call_id
             payload := Payload.arr ((s.sort (· ≤ ·)).map Elt.int)
             type_attr := ["<class 'set'>"]
             python_subdtype := Option.none
             opts := kwargs }, rfl, rfl, ?_⟩, rfl, rfl, rfl, by decide, by decide, by decide⟩
  · simp [decode, hkl_types_dict, List.lookup, load_list_dataset, get_type_and_data,
      readInts_map]
  · simp [decode, hkl_types_dict, List.lookup, load_tuple_dataset, get_type_and_data,
      readInts_map]
  · simp [decode, hkl_types_dict, List.lookup, load_set_dataset, get_type_and_data,
      readInts_map, Finset.sort_toFinset]

/-- C6: encoding True and decoding yields a boolean (never an integer);
encoding 3+4j and decoding yields the complex value with real part 3 and
imaginary part 4; and on python-dtype nodes the decode result depends only
on the payload and the `python_subdtype` attribute, so the subtype tag is
the only information distinguishing the scalar-numeric kinds at decode
time. -/
theorem subtype_fidelity :
    (∃ n, encode (PyVal.bool true) 0 [] = Option.some n ∧
        decode n = Except.ok (PyVal.bool true) ∧
        ∀ k : Int, decode n ≠ Except.ok (PyVal.int k)) ∧
    (∃ n, encode (PyVal.complex 3 4) 0 [] = Option.some n ∧
        decode n = Except.ok (PyVal.complex 3 4)) ∧
    (∀ n₁ n₂ : Node, n₁.type_attr.head? = Option.some "python_dtype" →
      n₂.type_attr.head? = Option.some "python_dtype" →
      n₁.payload = n₂.payload → n₁.python_subdtype = n₂.python_subdtype →
      decode n₁ = decode n₂) := by
  refine ⟨⟨_, rfl, rfl, ?_⟩, ⟨_, rfl, rfl⟩, ?_⟩
  · intro k h
    have h' := Except.ok.inj h
    exact PyVal.noConfusion h'
  · intro n₁ n₂ h1 h2 hp hs
    rw [decode_eq_of_lookup n₁ "python_dtype" load_python_dtype_dataset h1
        hkl_lookup_python_dtype,
      decode_eq_of_lookup n₂ "python_dtype" load_python_dtype_dataset h2
        hkl_lookup_python_dtype]
    unfold load_python_dtype_dataset get_type_and_data
    rw [hp, hs]

/-- Witness for C6: two python-dtype nodes sharing payload and subtype but
differing in name, extra tag entries and options decode identically. -/
theorem subtype_fidelity_witness :
    decode { name := "a"
             payload := Payload.scalar (Elt.int 1)
             type_attr := ["python_dtype"]
             python_subdtype := Option.some "<class 'bool'>"
             opts := [] } =
      decode { name := "b"
               payload := Payload.scalar (Elt.int 1)
               type_attr := ["python_dtype", "extra"]
               python_subdtype := Option.some "<class 'bool'>"
               opts := [("compression", "gzip")] } :=
  subtype_fidelity.2.2 _ _ rfl rfl rfl rfl

/-- C7: the byte string b"ab" encodes to a bytes-tagged node that decodes
back to the same byte string, the text string "ab" encodes to a
string-tagged node that decodes back to the same text string, and in general
a byte string never round-trips to a text string nor vice versa. -/
theorem bytes_string_distinct_roundtrip (call_id : Nat) (kwargs : Options) :
    (∃ n, encode (PyVal.bytes [97, 98]) call_id kwargs = Option.some n ∧
        n.type_attr = ["bytes"] ∧ decode n = Except.ok (PyVal.bytes [97, 98])) ∧
    (∃ n, encode (PyVal.str "ab") call_id kwargs = Option.some n ∧
        n.type_attr = ["string"] ∧ decode n = Except.ok (PyVal.str "ab")) ∧
    (∀ bs, ∃ n, encode (PyVal.bytes bs) call_id kwargs = Option.some n ∧
        decode n = Except.ok (PyVal.bytes bs) ∧
        ∀ t, decode n ≠ Except.ok (PyVal.str t)) ∧
    (∀ s, ∃ n, encode (PyVal.str s) call_id kwargs = Option.some n ∧
        decode n = Except.ok (PyVal.str s) ∧
        ∀ bs, decode n ≠ Except.ok (PyVal.bytes bs)) := by
  refine ⟨⟨_, rfl, rfl, rfl⟩, ⟨_, rfl, rfl, rfl⟩, ?_, ?_⟩
  · intro bs
    refine ⟨_, rfl, rfl, ?_⟩
    intro t h
    exact PyVal.noConfusion (Except.ok.inj h)
  · intro s
    refine ⟨_, rfl, rfl, ?_⟩
    intro bs h
    exact PyVal.noConfusion (Except.ok.inj h)

/-- C8: every node tagged `none` decodes to the absence-of-value singleton,
whatever its payload holds, and encoding None then decoding yields None. -/
theorem none_tag_always_decodes_none (call_id : Nat) (kwargs : Options) :
    (∀ n : Node, n.type_attr.head? = Option.some "none" →
      decode n = Except.ok PyVal.none) ∧
    (∃ n, encode PyVal.none call_id kwargs = Option.some n ∧
      decode n = Except.ok PyVal.none) := by
  constructor
  · intro n h
    rw [decode_eq_of_lookup n "none" load_none_dataset h hkl_lookup_none]
    rfl
  · exact ⟨_, rfl, rfl⟩

/-- Witness for C8: a none-tagged node with a junk payload of length 2 still
decodes to None. -/
theorem none_tag_always_decodes_none_witness :
    decode { name := "x"
             payload := Payload.arr [Elt.str "junk", Elt.int 5]
             type_attr := ["none"]
             python_subdtype := Option.some "w"
             opts := [] } = Except.ok PyVal.none :=
  (none_tag_always_decodes_none 0 []).1 _ rfl

/-- C9 counterexample: a bytes-tagged node whose payload has length 2 (not
the required 1) decodes successfully to the first element instead of failing
with any error. -/
theorem long_payload_decodes_counterexample :
    decode { name := "data_0"
             payload := Payload.arr [Elt.bytes [97], Elt.bytes [98]]
             type_attr := ["bytes"]
             python_subdtype := Option.none
             opts := [] } = Except.ok (PyVal.bytes [97]) := rfl

/-- C9 as amended: decoding a `bytes`- or `string`-tagged node whose payload
is an empty array fails (an index error reading slot 0 — the failure the
spec's taxonomy calls MalformedPayloadError) and returns no value; payloads
longer than one element decode from slot 0 without error, and a `none`
node never fails regardless of its payload. -/
theorem empty_payload_decode_fails (n : Node) :
    (n.type_attr.head? = Option.some "bytes" → n.payload = Payload.arr [] →
      decode n = Except.error DecodeErr.indexError) ∧
    (n.type_attr.head? = Option.some "string" → n.payload = Payload.arr [] →
      decode n = Except.error DecodeErr.indexError) ∧
    (n.type_attr.head? = Option.some "none" → decode n = Except.ok PyVal.none) := by
  refine ⟨?_, ?_, ?_⟩
  · intro h1 h2
    rw [decode_eq_of_lookup n "bytes" load_bytes_dataset h1 hkl_lookup_bytes]
    simp [load_bytes_dataset, get_type_and_data, h2, item0, Bind.bind, Except.bind]
  · intro h1 h2
    rw [decode_eq_of_lookup n "string" load_string_dataset h1 hkl_lookup_string]
    simp [load_string_dataset, get_type_and_data, h2, item0, Bind.bind, Except.bind]
  · intro h
    rw [decode_eq_of_lookup n "none" load_none_dataset h hkl_lookup_none]
    rfl

/-- Witness for amended C9: a bytes-tagged node with an empty payload fails
with an index error. -/
theorem empty_payload_decode_fails_witness :
    decode { name := "data_0"
             payload := Payload.arr []
             type_attr := ["bytes"]
             python_subdtype := Option.none
             opts := [] } = Except.error DecodeErr.indexError :=
  (empty_payload_decode_fails _).1 rfl rfl

/-- C10: the string-like dumper, called on a value that is neither a byte
string nor a text string, matches neither of its two branches and returns
without creating any node and without raising. -/
theorem stringlike_dumper_silent_on_other_kinds (v : PyVal) (call_id : Nat)
    (kwargs : Options)
    (hb : type_of v ≠ PyType.bytes) (hs : type_of v ≠ PyType.str) :
    create_stringlike_dataset v call_id kwargs = Option.none := by
  cases v <;> first | rfl | exact absurd rfl hb | exact absurd rfl hs

/-- Witness for C10 at the integer 3. -/
theorem stringlike_dumper_silent_on_other_kinds_witness :
    create_stringlike_dataset (PyVal.int 3) 0 [("compression", "gzip")] = Option.none :=
  stringlike_dumper_silent_on_other_kinds (PyVal.int 3) 0 [("compression", "gzip")]
    (by decide) (by decide)

end HickleP3
